import Mathlib

/-!
Verification of the `athena` NPC cognition library.

Shallow embedding of the four core modules:
`knowledge_graph.rs`, `emotional_response.rs`, `adaptive_intelligence.rs`,
`personality.rs`.

Rust `HashMap<String, V>` is modelled as an association list with
replace-on-insert semantics (`mapInsert` erases any previous binding before
prepending the new one) and first-match lookup (`mapGet`); this reproduces
exactly the observable `insert`/`get` behaviour of the hash map.  Rust `Vec`
push/iterate is modelled by `List` append/traversal.  `f64` is modelled by
an explicit IEEE-style type `F64` (NaN, the two infinities, and finite
values as rationals), with comparisons and `clamp` following the Rust
standard library definitions; `clamp` performs no arithmetic, only
comparisons, so this model is exact.
-/

namespace Athena

/-- First-match lookup in an association list: the observable `get` of a
`HashMap<String, V>`. -/
def mapGet {V : Type} : List (String × V) → String → Option V
  | [], _ => none
  | p :: rest, k => if p.1 = k then some p.2 else mapGet rest k

/-- Replace-on-insert into an association list: the observable `insert` of a
`HashMap<String, V>` (any previous binding for the key is removed). -/
def mapInsert {V : Type} (m : List (String × V)) (k : String) (v : V) :
    List (String × V) :=
  (k, v) :: m.filter (fun p => p.1 != k)

/-! ## knowledge_graph.rs -/

/-- Source `Entity` from `knowledge_graph.rs`: unique string id plus a property map. -/
structure Entity where
  id : String
  properties : List (String × String)
deriving DecidableEq, Repr

/-- Source `Relationship` from `knowledge_graph.rs`. -/
structure Relationship where
  source : String
  target : String
  relation_type : String
  properties : List (String × String)
deriving DecidableEq, Repr

/-- Source `KnowledgeGraph` from `knowledge_graph.rs`: entity map plus an ordered
sequence of relationships. -/
structure KnowledgeGraph where
  entities : List (String × Entity)
  relationships : List Relationship
deriving DecidableEq, Repr

/-- Source `KnowledgeGraph::new`. -/
def KnowledgeGraph.new : KnowledgeGraph :=
  { entities := [], relationships := [] }

/-- Source `KnowledgeGraph::add_entity`: `self.entities.insert(entity.id.clone(), entity)`. -/
def KnowledgeGraph.add_entity (kg : KnowledgeGraph) (entity : Entity) :
    KnowledgeGraph :=
  { kg with entities := mapInsert kg.entities entity.id entity }

/-- Source `KnowledgeGraph::add_relationship`: `self.relationships.push(relationship)`. -/
def KnowledgeGraph.add_relationship (kg : KnowledgeGraph)
    (relationship : Relationship) : KnowledgeGraph :=
  { kg with relationships := kg.relationships ++ [relationship] }

/-- Source `KnowledgeGraph::get_entity`: `self.entities.get(id)`. -/
def KnowledgeGraph.get_entity (kg : KnowledgeGraph) (id : String) :
    Option Entity :=
  mapGet kg.entities id

/-- Source `KnowledgeGraph::get_relationships`: iterate and keep every relationship
with `r.source == entity_id || r.target == entity_id`. -/
def KnowledgeGraph.get_relationships (kg : KnowledgeGraph)
    (entity_id : String) : List Relationship :=
  kg.relationships.filter (fun r => r.source == entity_id || r.target == entity_id)

/-! ## emotional_response.rs -/

/-- The `Emotion` enum from `emotional_response.rs`. -/
inductive Emotion where
  | Joy
  | Trust
  | Fear
  | Surprise
  | Sadness
  | Disgust
  | Anger
  | Anticipation
  | Neutral
deriving DecidableEq, Repr

/-- Source `EmotionalResponse`: current emotion plus trigger → emotion memory. -/
structure EmotionalResponse where
  current_emotion : Emotion
  memory : List (String × Emotion)
deriving DecidableEq, Repr

/-- Source `EmotionalResponse::new`: Neutral emotion, empty memory. -/
def EmotionalResponse.new : EmotionalResponse :=
  { current_emotion := Emotion.Neutral, memory := [] }

/-- Source `EmotionalResponse::set_emotion`. -/
def EmotionalResponse.set_emotion (er : EmotionalResponse) (emotion : Emotion) :
    EmotionalResponse :=
  { er with current_emotion := emotion }

/-- Source `EmotionalResponse::get_emotion`. -/
def EmotionalResponse.get_emotion (er : EmotionalResponse) : Emotion :=
  er.current_emotion

/-- Source `EmotionalResponse::record_memory`: `self.memory.insert(trigger, emotion)`. -/
def EmotionalResponse.record_memory (er : EmotionalResponse) (trigger : String)
    (emotion : Emotion) : EmotionalResponse :=
  { er with memory := mapInsert er.memory trigger emotion }

/-- Source `EmotionalResponse::get_memory`: `self.memory.get(trigger)`. -/
def EmotionalResponse.get_memory (er : EmotionalResponse) (trigger : String) :
    Option Emotion :=
  mapGet er.memory trigger

/-- Source `EmotionalResponse::choose_action`: the fixed emotion → action string match. -/
def EmotionalResponse.choose_action (er : EmotionalResponse) : String :=
  match er.current_emotion with
  | Emotion.Joy => "Dance"
  | Emotion.Trust => "Collaborate"
  | Emotion.Fear => "Hide"
  | Emotion.Surprise => "Investigate"
  | Emotion.Sadness => "Cry"
  | Emotion.Disgust => "Reject"
  | Emotion.Anger => "Shout"
  | Emotion.Anticipation => "Prepare"
  | Emotion.Neutral => "Observe"

/-! ## adaptive_intelligence.rs -/

/-- Source `Action` from `adaptive_intelligence.rs`. -/
structure Action where
  name : String
  description : String
deriving DecidableEq, Repr

/-- Source `AdaptiveIntelligence`: current behavioural state, general memory, and the
construction-time action catalog. -/
structure AdaptiveIntelligence where
  current_state : String
  memory : List (String × String)
  actions : List Action
deriving DecidableEq, Repr

/-- Source `AdaptiveIntelligence::new(actions)`: state `"Idle"`, empty memory. -/
def AdaptiveIntelligence.new (actions : List Action) : AdaptiveIntelligence :=
  { current_state := "Idle", memory := [], actions := actions }

/-- Source `AdaptiveIntelligence::update_state`. -/
def AdaptiveIntelligence.update_state (ai : AdaptiveIntelligence)
    (new_state : String) : AdaptiveIntelligence :=
  { ai with current_state := new_state }

/-- The `for action in &self.actions` loop body of
`AdaptiveIntelligence::select_action`. -/
def selectLoop : List Action → String → String
  | [], _ => "Action not found"
  | a :: rest, action_name =>
      if a.name = action_name then "Action selected: " ++ a.description
      else selectLoop rest action_name

/-- Source `AdaptiveIntelligence::select_action`: first catalog entry whose name
matches, else the miss sentinel. -/
def AdaptiveIntelligence.select_action (ai : AdaptiveIntelligence)
    (action_name : String) : String :=
  selectLoop ai.actions action_name

/-- Source `AdaptiveIntelligence::choose_action`: `match self.current_state.as_str()`
(a sequence of string-equality tests, as Rust compiles a `&str` match). -/
def AdaptiveIntelligence.choose_action (ai : AdaptiveIntelligence) : String :=
  if ai.current_state = "Idle" then ai.select_action "Rest"
  else if ai.current_state = "Alert" then ai.select_action "Investigate"
  else if ai.current_state = "Engaged" then ai.select_action "Talk"
  else if ai.current_state = "Fleeing" then ai.select_action "Run"
  else "No action available"

/-- Source `AdaptiveIntelligence::record_memory`. -/
def AdaptiveIntelligence.record_memory (ai : AdaptiveIntelligence)
    (key value : String) : AdaptiveIntelligence :=
  { ai with memory := mapInsert ai.memory key value }

/-- Source `AdaptiveIntelligence::get_memory`. -/
def AdaptiveIntelligence.get_memory (ai : AdaptiveIntelligence) (key : String) :
    Option String :=
  mapGet ai.memory key

/-- Source `AdaptiveIntelligence::get_current_state`. -/
def AdaptiveIntelligence.get_current_state (ai : AdaptiveIntelligence) : String :=
  ai.current_state

/-! ## personality.rs -/

/-- An IEEE-754 double as observed through comparisons: NaN, the two
infinities, or a finite value (represented as a rational; every finite
double is one). -/
inductive F64 where
  | nan : F64
  | neginf : F64
  | posinf : F64
  | fin : ℚ → F64
deriving DecidableEq

/-- IEEE `<` on doubles: any comparison with NaN is false. -/
def F64.blt : F64 → F64 → Bool
  | F64.nan, _ => false
  | _, F64.nan => false
  | F64.neginf, F64.neginf => false
  | F64.neginf, _ => true
  | _, F64.neginf => false
  | F64.posinf, _ => false
  | F64.fin _, F64.posinf => true
  | F64.fin a, F64.fin b => a < b

/-- IEEE `<=` on doubles: any comparison with NaN is false. -/
def F64.ble : F64 → F64 → Bool
  | F64.nan, _ => false
  | _, F64.nan => false
  | F64.neginf, _ => true
  | _, F64.neginf => false
  | _, F64.posinf => true
  | F64.posinf, _ => false
  | F64.fin a, F64.fin b => a ≤ b

/-- Rust `f64::clamp(self, min, max)`:
`if self < min { min } else if self > max { max } else { self }`;
NaN input yields NaN. -/
def F64.clamp (x lo hi : F64) : F64 :=
  let x1 := if F64.blt x lo then lo else x
  if F64.blt hi x1 then hi else x1

/-- Source `Personality` from `personality.rs`: the five Big Five traits. -/
structure Personality where
  openness : F64
  conscientiousness : F64
  extraversion : F64
  agreeableness : F64
  neuroticism : F64
deriving DecidableEq

/-- Source `Personality::new`: every trait 0.5. -/
def Personality.new : Personality :=
  { openness := F64.fin (1/2), conscientiousness := F64.fin (1/2),
    extraversion := F64.fin (1/2), agreeableness := F64.fin (1/2),
    neuroticism := F64.fin (1/2) }

/-- Source `Personality::set_openness`: `self.openness = value.clamp(0.0, 1.0)`. -/
def Personality.set_openness (p : Personality) (value : F64) : Personality :=
  { p with openness := value.clamp (F64.fin 0) (F64.fin 1) }

/-- Source `Personality::set_conscientiousness`. -/
def Personality.set_conscientiousness (p : Personality) (value : F64) :
    Personality :=
  { p with conscientiousness := value.clamp (F64.fin 0) (F64.fin 1) }

/-- Source `Personality::set_extraversion`. -/
def Personality.set_extraversion (p : Personality) (value : F64) : Personality :=
  { p with extraversion := value.clamp (F64.fin 0) (F64.fin 1) }

/-- Source `Personality::set_agreeableness`. -/
def Personality.set_agreeableness (p : Personality) (value : F64) : Personality :=
  { p with agreeableness := value.clamp (F64.fin 0) (F64.fin 1) }

/-- Source `Personality::set_neuroticism`. -/
def Personality.set_neuroticism (p : Personality) (value : F64) : Personality :=
  { p with neuroticism := value.clamp (F64.fin 0) (F64.fin 1) }

/-- Whether `v` lies in the closed interval [0.0, 1.0] under IEEE comparison
(false for NaN). -/
def F64.inUnit (v : F64) : Bool :=
  F64.ble (F64.fin 0) v && F64.ble v (F64.fin 1)

/-! ## Spec-side definitions (from the spec's words, for the refinement
claim about the two-stage decision process) -/

/-- Stage 1 of the spec: the state → desired-action-name table
(Idle→Rest, Alert→Investigate, Engaged→Talk, Fleeing→Run, otherwise none). -/
def desired_action_name (state : String) : Option String :=
  if state = "Idle" then some "Rest"
  else if state = "Alert" then some "Investigate"
  else if state = "Engaged" then some "Talk"
  else if state = "Fleeing" then some "Run"
  else none

/-- Stage 2 of the spec: scan the catalog in order for the first action whose
name equals the desired name. -/
def find_action (actions : List Action) (n : String) : Option Action :=
  actions.find? (fun a => a.name == n)

/-- The spec's description of `choose_action` as a two-stage process:
stage 1 names a desired action or terminates with the sentinel
"No action available"; stage 2 looks the name up in the catalog, returning
"Action selected: " ++ description on a hit and "Action not found" on a miss. -/
def choose_action_spec (ai : AdaptiveIntelligence) : String :=
  match desired_action_name ai.current_state with
  | none => "No action available"
  | some n =>
    match find_action ai.actions n with
    | some a => "Action selected: " ++ a.description
    | none => "Action not found"

/-! ## Helper lemmas -/

/-- Filtering away the bindings of key `k` does not change lookups of a
different key `t`. -/
theorem mapGet_filter_ne {V : Type} (m : List (String × V)) (k t : String)
    (h : t ≠ k) :
    mapGet (m.filter (fun p => p.1 != k)) t = mapGet m t := by
  induction m with
  | nil => rfl
  | cons p rest ih =>
    have hkt : k ≠ t := fun he => h he.symm
    by_cases hp : p.1 = k
    · have hpt : p.1 ≠ t := by
        rw [hp]
        exact hkt
      simp [List.filter_cons, hp, mapGet, hpt, hkt, ih]
    · by_cases hpt : p.1 = t
      · simp [List.filter_cons, hp, mapGet, hpt, h, ih]
      · simp [List.filter_cons, hp, mapGet, hpt, h, ih]

/-- Lookup after replace-on-insert: the inserted key reads back the new value,
every other key is unaffected. -/
theorem mapGet_mapInsert {V : Type} (m : List (String × V)) (k t : String)
    (v : V) :
    mapGet (mapInsert m k v) t = if t = k then some v else mapGet m t := by
  by_cases h : t = k
  · subst h
    simp [mapInsert, mapGet]
  · have hk : k ≠ t := fun he => h he.symm
    simp [mapInsert, mapGet, h, hk, mapGet_filter_ne m k t h]

/-- A key bound nowhere in the association list looks up to `none`. -/
theorem mapGet_eq_none {V : Type} (m : List (String × V)) (k : String)
    (h : ∀ p ∈ m, p.1 ≠ k) : mapGet m k = none := by
  induction m with
  | nil => rfl
  | cons p rest ih =>
    have h1 : p.1 ≠ k := h p (by simp)
    simp [mapGet, h1]
    exact ih (fun q hq => h q (by simp [hq]))

/-- The source's linear scan `select_action` agrees with a first-match
`find?` over the catalog. -/
theorem selectLoop_eq_find (actions : List Action) (n : String) :
    selectLoop actions n =
      match actions.find? (fun a => a.name == n) with
      | some a => "Action selected: " ++ a.description
      | none => "Action not found" := by
  induction actions with
  | nil => rfl
  | cons a rest ih =>
    by_cases h : a.name = n
    · simp [selectLoop, h, List.find?_cons]
    · simp [selectLoop, h, List.find?_cons, ih]

/-- Folding `add_relationship` over a list appends the list, in order, to the
relationship sequence. -/
theorem foldl_add_relationship (rs : List Relationship) (kg : KnowledgeGraph) :
    (rs.foldl KnowledgeGraph.add_relationship kg).relationships
      = kg.relationships ++ rs := by
  induction rs generalizing kg with
  | nil => simp
  | cons r rest ih =>
    simp [List.foldl, KnowledgeGraph.add_relationship, ih]

/-- The scan of `select_action` either misses or returns the sentence built
from some catalog entry's description. -/
theorem selectLoop_cases (actions : List Action) (n : String) :
    selectLoop actions n = "Action not found"
    ∨ ∃ a ∈ actions, selectLoop actions n = "Action selected: " ++ a.description := by
  induction actions with
  | nil => exact Or.inl rfl
  | cons a rest ih =>
    by_cases h : a.name = n
    · exact Or.inr ⟨a, by simp, by simp [selectLoop, h]⟩
    · rcases ih with hmiss | ⟨b, hb, hbeq⟩
      · exact Or.inl (by simp [selectLoop, h, hmiss])
      · exact Or.inr ⟨b, by simp [hb], by simp [selectLoop, h, hbeq]⟩

/-- Filtering by a predicate the element satisfies keeps its multiplicity. -/
theorem count_filter_of_pos {α : Type} [DecidableEq α] (l : List α)
    (p : α → Bool) (a : α) (h : p a = true) :
    (l.filter p).count a = l.count a := by
  induction l with
  | nil => rfl
  | cons b rest ih =>
    by_cases hb : p b = true
    · simp [List.filter_cons, hb, List.count_cons, ih]
    · have hba : ¬(b = a) := fun he => hb (he ▸ h)
      simp [List.filter_cons, hb, List.count_cons, hba, ih]

/-- The clamp of any non-NaN double into [0.0, 1.0] lands in [0.0, 1.0]. -/
theorem clamp_unit_inUnit (v : F64) (h : v ≠ F64.nan) :
    (v.clamp (F64.fin 0) (F64.fin 1)).inUnit = true := by
  cases v with
  | nan => exact absurd rfl h
  | neginf =>
    norm_num [F64.clamp, F64.blt, F64.ble, F64.inUnit]
  | posinf =>
    norm_num [F64.clamp, F64.blt, F64.ble, F64.inUnit]
  | fin q =>
    by_cases h1 : q < 0
    · norm_num [F64.clamp, F64.blt, F64.ble, F64.inUnit, h1]
    · by_cases h2 : (1 : ℚ) < q
      · norm_num [F64.clamp, F64.blt, F64.ble, F64.inUnit, h1, h2]
      · norm_num [F64.clamp, F64.blt, F64.ble, F64.inUnit, h1, h2]
        constructor
        · linarith [not_lt.mp h1]
        · linarith [not_lt.mp h2]

/-! ## Claim theorems -/

/-- C1: `choose_action` of the Decision Engine is the two-stage process of
the spec: stage 1 maps the state Idle/Alert/Engaged/Fleeing to the desired
action name Rest/Investigate/Talk/Run and any other label straight to the
sentinel "No action available"; stage 2 scans the catalog in order for the
first action with the desired name, returning "Action selected: " followed
by its description on a hit and "Action not found" on a miss. -/
theorem choose_action_two_stage (ai : AdaptiveIntelligence) :
    ai.choose_action = choose_action_spec ai := by
  unfold AdaptiveIntelligence.choose_action choose_action_spec
    desired_action_name AdaptiveIntelligence.select_action find_action
  split_ifs <;> simp [selectLoop_eq_find]

/-- C2: after any sequence of `add_relationship` calls, `get_relationships x`
returns exactly the added relationships whose source or target is `x`, in
insertion order, and its count equals the number of such relationships. -/
theorem get_relationships_exact (rs : List Relationship) (x : String) :
    (rs.foldl KnowledgeGraph.add_relationship KnowledgeGraph.new).get_relationships x
      = rs.filter (fun r => r.source == x || r.target == x)
    ∧ ((rs.foldl KnowledgeGraph.add_relationship KnowledgeGraph.new).get_relationships x).length
      = rs.countP (fun r => r.source == x || r.target == x) := by
  constructor
  · simp [KnowledgeGraph.get_relationships, foldl_add_relationship,
      KnowledgeGraph.new]
  · simp [KnowledgeGraph.get_relationships, foldl_add_relationship,
      KnowledgeGraph.new, List.countP_eq_length_filter]

/-- C3: the emotion→action choice is exactly the fixed 9-entry table
(Joy→Dance, Trust→Collaborate, Fear→Hide, Surprise→Investigate,
Sadness→Cry, Disgust→Reject, Anger→Shout, Anticipation→Prepare,
Neutral→Observe), and it depends only on the current emotion, not on the
emotional memory map — so repeated calls without an intervening
`set_emotion` return the same string. -/
theorem choose_action_emotion_table :
    (∀ er : EmotionalResponse, (er.set_emotion Emotion.Joy).choose_action = "Dance")
  ∧ (∀ er : EmotionalResponse, (er.set_emotion Emotion.Trust).choose_action = "Collaborate")
  ∧ (∀ er : EmotionalResponse, (er.set_emotion Emotion.Fear).choose_action = "Hide")
  ∧ (∀ er : EmotionalResponse, (er.set_emotion Emotion.Surprise).choose_action = "Investigate")
  ∧ (∀ er : EmotionalResponse, (er.set_emotion Emotion.Sadness).choose_action = "Cry")
  ∧ (∀ er : EmotionalResponse, (er.set_emotion Emotion.Disgust).choose_action = "Reject")
  ∧ (∀ er : EmotionalResponse, (er.set_emotion Emotion.Anger).choose_action = "Shout")
  ∧ (∀ er : EmotionalResponse, (er.set_emotion Emotion.Anticipation).choose_action = "Prepare")
  ∧ (∀ er : EmotionalResponse, (er.set_emotion Emotion.Neutral).choose_action = "Observe")
  ∧ (∀ (e : Emotion) (m1 m2 : List (String × Emotion)),
      (EmotionalResponse.mk e m1).choose_action
        = (EmotionalResponse.mk e m2).choose_action) :=
  ⟨fun _ => rfl, fun _ => rfl, fun _ => rfl, fun _ => rfl, fun _ => rfl,
   fun _ => rfl, fun _ => rfl, fun _ => rfl, fun _ => rfl,
   fun _ _ _ => rfl⟩

/-- C4: the store operations are total and never fault: a missing entity or
memory key reads back as `none`, an unmapped behavioural state yields the
sentinel "No action available", and the two `choose_action` functions always
return one of their finitely many sentence shapes. -/
theorem operations_total :
    (∀ (kg : KnowledgeGraph) (id : String),
        (∀ p ∈ kg.entities, p.1 ≠ id) → kg.get_entity id = none)
  ∧ (∀ (ai : AdaptiveIntelligence) (key : String),
        (∀ p ∈ ai.memory, p.1 ≠ key) → ai.get_memory key = none)
  ∧ (∀ (er : EmotionalResponse) (trigger : String),
        (∀ p ∈ er.memory, p.1 ≠ trigger) → er.get_memory trigger = none)
  ∧ (∀ ai : AdaptiveIntelligence,
        ai.current_state ≠ "Idle" → ai.current_state ≠ "Alert" →
        ai.current_state ≠ "Engaged" → ai.current_state ≠ "Fleeing" →
        ai.choose_action = "No action available")
  ∧ (∀ ai : AdaptiveIntelligence,
        ai.choose_action = "No action available"
        ∨ ai.choose_action = "Action not found"
        ∨ ∃ a ∈ ai.actions, ai.choose_action = "Action selected: " ++ a.description)
  ∧ (∀ er : EmotionalResponse,
        er.choose_action ∈ ["Dance", "Collaborate", "Hide", "Investigate",
          "Cry", "Reject", "Shout", "Prepare", "Observe"]) := by
  refine ⟨?_, ?_, ?_, ?_, ?_, ?_⟩
  · exact fun kg id h => mapGet_eq_none kg.entities id h
  · exact fun ai key h => mapGet_eq_none ai.memory key h
  · exact fun er trigger h => mapGet_eq_none er.memory trigger h
  · intro ai h1 h2 h3 h4
    simp [AdaptiveIntelligence.choose_action, h1, h2, h3, h4]
  · intro ai
    unfold AdaptiveIntelligence.choose_action AdaptiveIntelligence.select_action
    split_ifs with h1 h2 h3 h4
    · rcases selectLoop_cases ai.actions "Rest" with hm | ⟨a, ha, he⟩
      · exact Or.inr (Or.inl hm)
      · exact Or.inr (Or.inr ⟨a, ha, he⟩)
    · rcases selectLoop_cases ai.actions "Investigate" with hm | ⟨a, ha, he⟩
      · exact Or.inr (Or.inl hm)
      · exact Or.inr (Or.inr ⟨a, ha, he⟩)
    · rcases selectLoop_cases ai.actions "Talk" with hm | ⟨a, ha, he⟩
      · exact Or.inr (Or.inl hm)
      · exact Or.inr (Or.inr ⟨a, ha, he⟩)
    · rcases selectLoop_cases ai.actions "Run" with hm | ⟨a, ha, he⟩
      · exact Or.inr (Or.inl hm)
      · exact Or.inr (Or.inr ⟨a, ha, he⟩)
    · exact Or.inl rfl
  · intro er
    cases h : er.current_emotion <;> simp [EmotionalResponse.choose_action, h]

/-- Witness for C4 at concrete inputs. -/
theorem operations_total_witness :
    KnowledgeGraph.new.get_entity "ghost" = none
  ∧ (AdaptiveIntelligence.new []).get_memory "ghost" = none
  ∧ EmotionalResponse.new.get_memory "ghost" = none
  ∧ ((AdaptiveIntelligence.new []).update_state "Dazed").choose_action
      = "No action available" :=
  ⟨operations_total.1 KnowledgeGraph.new "ghost" (by simp [KnowledgeGraph.new]),
   operations_total.2.1 (AdaptiveIntelligence.new []) "ghost"
     (by simp [AdaptiveIntelligence.new]),
   operations_total.2.2.1 EmotionalResponse.new "ghost"
     (by simp [EmotionalResponse.new]),
   operations_total.2.2.2.1 ((AdaptiveIntelligence.new []).update_state "Dazed")
     (by decide) (by decide) (by decide) (by decide)⟩

/-- C5: after `add_entity e`, `get_entity e.id` returns `e`; inserting a
second entity with the same id afterwards makes `get_entity` return the
second entity in full, property map included — the first is replaced. -/
theorem add_entity_get_roundtrip (kg : KnowledgeGraph) (e e2 : Entity)
    (h : e2.id = e.id) :
    (kg.add_entity e).get_entity e.id = some e
  ∧ ((kg.add_entity e).add_entity e2).get_entity e.id = some e2 := by
  constructor
  · simp [KnowledgeGraph.add_entity, KnowledgeGraph.get_entity, mapGet_mapInsert]
  · simp [KnowledgeGraph.add_entity, KnowledgeGraph.get_entity, mapGet_mapInsert, h]

/-- Witness for C5 at concrete entities sharing the id "1". -/
theorem add_entity_get_roundtrip_witness :
    (KnowledgeGraph.new.add_entity (Entity.mk "1" [("name", "Alice")])).get_entity "1"
      = some (Entity.mk "1" [("name", "Alice")])
  ∧ ((KnowledgeGraph.new.add_entity (Entity.mk "1" [("name", "Alice")])).add_entity
        (Entity.mk "1" [("name", "Bob")])).get_entity "1"
      = some (Entity.mk "1" [("name", "Bob")]) :=
  add_entity_get_roundtrip KnowledgeGraph.new
    (Entity.mk "1" [("name", "Alice")]) (Entity.mk "1" [("name", "Bob")]) rfl

/-- C6: in both the general memory store and the emotional memory,
`record_memory k v` followed by `get_memory t` yields `v` when `t = k` and
the old reading otherwise (so a later write to the same key overwrites, and
other keys are untouched); a key never recorded reads `none`; and a write to
either store never affects reads from the other store. -/
theorem memory_roundtrip :
    (∀ (ai : AdaptiveIntelligence) (k v t : String),
        (ai.record_memory k v).get_memory t
          = if t = k then some v else ai.get_memory t)
  ∧ (∀ (ai : AdaptiveIntelligence) (k v1 v2 : String),
        ((ai.record_memory k v1).record_memory k v2).get_memory k = some v2)
  ∧ (∀ (actions : List Action) (k : String),
        (AdaptiveIntelligence.new actions).get_memory k = none)
  ∧ (∀ (er : EmotionalResponse) (t : String) (e : Emotion) (s : String),
        (er.record_memory t e).get_memory s
          = if s = t then some e else er.get_memory s)
  ∧ (∀ (er : EmotionalResponse) (t : String) (e1 e2 : Emotion),
        ((er.record_memory t e1).record_memory t e2).get_memory t = some e2)
  ∧ (∀ t : String, EmotionalResponse.new.get_memory t = none)
  ∧ (∀ (ai : AdaptiveIntelligence) (er : EmotionalResponse) (k v t : String),
        ((ai.record_memory k v, er) : AdaptiveIntelligence × EmotionalResponse).2.get_memory t
          = er.get_memory t)
  ∧ (∀ (ai : AdaptiveIntelligence) (er : EmotionalResponse) (t : String)
        (e : Emotion) (k : String),
        ((ai, er.record_memory t e) : AdaptiveIntelligence × EmotionalResponse).1.get_memory k
          = ai.get_memory k) := by
  refine ⟨?_, ?_, ?_, ?_, ?_, ?_, ?_, ?_⟩
  · intro ai k v t
    simp [AdaptiveIntelligence.record_memory, AdaptiveIntelligence.get_memory,
      mapGet_mapInsert]
  · intro ai k v1 v2
    simp [AdaptiveIntelligence.record_memory, AdaptiveIntelligence.get_memory,
      mapGet_mapInsert]
  · intro actions k
    simp [AdaptiveIntelligence.new, AdaptiveIntelligence.get_memory, mapGet]
  · intro er t e s
    simp [EmotionalResponse.record_memory, EmotionalResponse.get_memory,
      mapGet_mapInsert]
  · intro er t e1 e2
    simp [EmotionalResponse.record_memory, EmotionalResponse.get_memory,
      mapGet_mapInsert]
  · intro t
    simp [EmotionalResponse.new, EmotionalResponse.get_memory, mapGet]
  · intro ai er k v t
    rfl
  · intro ai er t e k
    rfl

/-- C7 counterexample: Rust's `f64::clamp` propagates NaN, so
`set_openness(NaN)` stores NaN, which does not lie in [0.0, 1.0] — the
claim that every input is clamped into [0.0, 1.0] fails at NaN. -/
theorem personality_clamp_nan_counterexample :
    ((Personality.new.set_openness F64.nan).openness).inUnit = false := rfl

/-- C7 amended: for every non-NaN input, each of the five trait setters
stores a value in [0.0, 1.0] (NaN input stores NaN instead), and
`Personality::new` initialises every trait to 0.5. -/
theorem personality_clamp_inUnit (p : Personality) (v : F64)
    (h : v ≠ F64.nan) :
    ((p.set_openness v).openness).inUnit = true
  ∧ ((p.set_conscientiousness v).conscientiousness).inUnit = true
  ∧ ((p.set_extraversion v).extraversion).inUnit = true
  ∧ ((p.set_agreeableness v).agreeableness).inUnit = true
  ∧ ((p.set_neuroticism v).neuroticism).inUnit = true
  ∧ Personality.new.openness = F64.fin (1/2)
  ∧ Personality.new.conscientiousness = F64.fin (1/2)
  ∧ Personality.new.extraversion = F64.fin (1/2)
  ∧ Personality.new.agreeableness = F64.fin (1/2)
  ∧ Personality.new.neuroticism = F64.fin (1/2) :=
  ⟨clamp_unit_inUnit v h, clamp_unit_inUnit v h, clamp_unit_inUnit v h,
   clamp_unit_inUnit v h, clamp_unit_inUnit v h,
   rfl, rfl, rfl, rfl, rfl⟩

/-- Witness for the amended C7 at the concrete non-NaN input 7.0 (clamped to 1.0). -/
theorem personality_clamp_inUnit_witness :
    ((Personality.new.set_openness (F64.fin 7)).openness).inUnit = true :=
  (personality_clamp_inUnit Personality.new (F64.fin 7) (by simp)).1

/-- C8: `add_relationship` appends the relationship and touches nothing else:
it succeeds for every relationship — in particular when the source or target
id is absent from the entity map (dangling ids, no referential-integrity
check) — and it leaves the entity map unchanged. -/
theorem add_relationship_no_integrity (kg : KnowledgeGraph) (r : Relationship) :
    (kg.add_relationship r).relationships = kg.relationships ++ [r]
  ∧ (kg.add_relationship r).entities = kg.entities :=
  ⟨rfl, rfl⟩

/-- C9: a self-loop relationship (source = target = x) is returned by
`get_relationships x` exactly once, not twice, although it satisfies both
disjuncts of the filter. -/
theorem self_loop_once (kg : KnowledgeGraph) (r : Relationship) (x : String)
    (h1 : r.source = x) (h2 : r.target = x)
    (h3 : kg.relationships.count r = 1) :
    (kg.get_relationships x).count r = 1 := by
  unfold KnowledgeGraph.get_relationships
  rw [count_filter_of_pos kg.relationships _ r (by simp [h1, h2])]
  exact h3

/-- Witness for C9 with a concrete self-loop on id "a". -/
theorem self_loop_once_witness :
    ((KnowledgeGraph.new.add_relationship
        (Relationship.mk "a" "a" "self" [])).get_relationships "a").count
      (Relationship.mk "a" "a" "self" []) = 1 :=
  self_loop_once
    (KnowledgeGraph.new.add_relationship (Relationship.mk "a" "a" "self" []))
    (Relationship.mk "a" "a" "self" []) "a" rfl rfl (by decide)

/-- C10: each mutator touches only its own field: `set_emotion` leaves the
emotional memory unchanged; the emotional `record_memory` leaves the current
emotion unchanged; `update_state` leaves the general memory and the action
catalog unchanged; the general `record_memory` leaves the current state and
the action catalog unchanged. -/
theorem mutators_frame :
    (∀ (er : EmotionalResponse) (e : Emotion),
        (er.set_emotion e).memory = er.memory)
  ∧ (∀ (er : EmotionalResponse) (t : String) (e : Emotion),
        (er.record_memory t e).current_emotion = er.current_emotion)
  ∧ (∀ (ai : AdaptiveIntelligence) (s : String),
        (ai.update_state s).memory = ai.memory
        ∧ (ai.update_state s).actions = ai.actions)
  ∧ (∀ (ai : AdaptiveIntelligence) (k v : String),
        (ai.record_memory k v).current_state = ai.current_state
        ∧ (ai.record_memory k v).actions = ai.actions) :=
  ⟨fun _ _ => rfl, fun _ _ _ => rfl, fun _ _ => ⟨rfl, rfl⟩,
   fun _ _ _ => ⟨rfl, rfl⟩⟩

end Athena
